import Mathlib

/-!
Shallow embedding of the two source files of the repository:

* `src/assistant.py` — a command-line code assistant: it reads a source
  file, builds a prompt around it, POSTs the prompt to a local Ollama
  server, prints the reply and saves it to an auto-numbered markdown file.
  The script's effects (printing, the HTTP POST, writing the output file,
  exiting) are modelled as an explicit trace of `Event`s produced from a
  `World` that fixes the outcome of every external call (file read, HTTP
  request, directory operations).

* `src/assistant01.py` — a script that encodes one query and four fixed
  documents with a sentence-embedding model, computes similarity scores and
  prints the document at `torch.argmax` of the scores.  The embedding model
  itself is an external library; the scores it yields are inputs of the
  embedding, and `torch.argmax` over the flattened score list is modelled
  exactly (first index attaining the maximum).

Machine integers do not appear: Python integers are unbounded, so `Nat`/`Int`
model them directly.  Strings are Lean `String`s; the regular expression
`out-(\d{5})\.md` used by the output-file numbering is modelled character by
character on `String.data` (with `\d` read as the ASCII digits, the only
digits the scripts ever produce), including the fact that `re.match` anchors
at the start of the filename only, not at its end.
-/

/-! ## Configuration constants of src/assistant.py -/

def OLLAMA_API_URL : String := "http://localhost:11434/api/generate"

def MODEL_NAME : String := "gemma3:4b"

def OUTPUT_DIR : String := "output"

/-! ## The HTTP request and its outcome -/

/-- The JSON body of the POST built in `get_response_from_ollama`:
`{"model": MODEL_NAME, "prompt": prompt, "stream": False}` — exactly three
fields. -/
structure Payload where
  model : String
  prompt : String
  stream : Bool
deriving DecidableEq

/-- Outcome of the single `requests.post` call, fixed by the world:
`jsonOk body` — the request succeeded with a 2xx/3xx status and the JSON
body parsed to the given string-valued dictionary; `reqError msg` — a
`requests.exceptions.RequestException` was raised (network failure, timeout,
or the `HTTPError` that `raise_for_status` raises on a 4xx/5xx status), with
`str(e) = msg`; `otherError msg` — any other exception. -/
inductive HttpOutcome where
  | jsonOk (body : List (String × String))
  | reqError (msg : String)
  | otherError (msg : String)
deriving DecidableEq

/-- Python's `dict.get(key, default)` on the parsed JSON body. -/
def dictGet (body : List (String × String)) (key dflt : String) : String :=
  match body.lookup key with
  | some v => v
  | none => dflt

/-- Model of `get_response_from_ollama` (src/assistant.py lines 14-41) after
the POST's outcome is fixed: extract the `"response"` key with the fallback
string, or turn the caught exception into an error-message string.  The
function is total — every exception of the Python body is caught. -/
def get_response_from_ollama (outcome : HttpOutcome) : String :=
  match outcome with
  | .jsonOk body => dictGet body "response" "No response found in the API output."
  | .reqError e => "An error occurred while connecting to Ollama: " ++ e
  | .otherError e => "An unexpected error occurred: " ++ e

/-! ## Prompt construction -/

/-- The constant system prompt of `generate_prompt` (lines 60-64). -/
def system_prompt : String :=
  "You are a helpful and knowledgeable code assistant. " ++
  "Your task is to analyze the provided code and answer the user's question. " ++
  "Be concise and clear in your explanation, and provide code examples if they are relevant to the user's query."

/-- The prompt `generate_prompt` builds (lines 67-73) once the file's
contents have been read: the f-string pieces concatenated in order. -/
def generate_prompt_text (file_path code_content user_query : String) : String :=
  system_prompt ++ "\n\n" ++
  "--- CODE FILE: " ++ file_path ++ " ---\n" ++
  "```\n" ++ code_content ++ "\n```\n\n" ++
  "--- USER QUESTION ---\n" ++
  user_query

/-- Outcome of `open(file_path, 'r', encoding='utf-8')` + `f.read()`, fixed
by the world: the contents, a `FileNotFoundError`, or another `IOError`. -/
inductive ReadRes where
  | ok (contents : String)
  | notFound
  | ioErr
deriving DecidableEq

/-! ## Output-file numbering (save_response_to_file, lines 102-117) -/

/-- The decimal digit characters, for Python's `format(n, 'd')`. -/
def digitChar (n : Nat) : Char :=
  match n with
  | 0 => '0' | 1 => '1' | 2 => '2' | 3 => '3' | 4 => '4'
  | 5 => '5' | 6 => '6' | 7 => '7' | 8 => '8' | 9 => '9'
  | _ => '*'

/-- Numeric value of a digit character (`int` on one char). -/
def charVal (c : Char) : Nat := c.toNat - 48

/-- Decimal digits of `n`, most significant first, by repeated division;
the fuel argument (always `≥ n + 1` at the call site) only makes the
recursion structural. -/
def decDigitsAux : Nat → Nat → List Char
  | 0, _ => []
  | fuel + 1, n =>
    if n < 10 then [digitChar n]
    else decDigitsAux fuel (n / 10) ++ [digitChar (n % 10)]

/-- Decimal representation of `n` as Python prints it. -/
def decDigits (n : Nat) : List Char := decDigitsAux (n + 1) n

/-- Python's `f"{n:05d}"` for a non-negative `n`: the decimal digits,
left-padded with zeros to a minimum width of five (numbers of six or more
digits are printed in full). -/
def pad5 (n : Nat) : List Char :=
  List.replicate (5 - (decDigits n).length) '0' ++ decDigits n

/-- Model of `re.compile(r"out-(\d{5})\.md").match(filename)` followed by
`int(match.group(1))`: `re.match` anchors at the start of the string only,
so the filename must *begin with* `out-`, five digits and `.md`, and may
continue arbitrarily after them.  Returns the value of the five-digit group
when the pattern matches. -/
def outMatchL : List Char → Option Nat
  | 'o' :: 'u' :: 't' :: '-' :: d1 :: d2 :: d3 :: d4 :: d5 :: '.' :: 'm' :: 'd' :: _ =>
    if d1.isDigit && d2.isDigit && d3.isDigit && d4.isDigit && d5.isDigit then
      some (charVal d1 * 10000 + charVal d2 * 1000 + charVal d3 * 100 +
            charVal d4 * 10 + charVal d5)
    else none
  | _ => none

/-- The matcher on filenames as strings. -/
def outMatch (filename : String) : Option Nat := outMatchL filename.data

/-- One iteration of the `for filename in os.listdir(OUTPUT_DIR)` loop
(lines 106-111): keep the running maximum, `-1` before any match. -/
def maxStep (m : Int) (filename : String) : Int :=
  match outMatch filename with
  | some n => if (n : Int) > m then (n : Int) else m
  | none => m

/-- `max_num` after the scan over the directory listing. -/
def maxNum (files : List String) : Int := files.foldl maxStep (-1)

/-- `next_num = max_num + 1` (line 116); never negative since `max_num ≥ -1`. -/
def nextNum (files : List String) : Nat := (maxNum files + 1).toNat

/-- The characters of `f"out-{next_num:05d}.md"`. -/
def outNameChars (n : Nat) : List Char :=
  'o' :: 'u' :: 't' :: '-' :: (pad5 n ++ ['.', 'm', 'd'])

/-- The chosen output filename. -/
def outName (n : Nat) : String := String.mk (outNameChars n)

/-- `os.path.join(OUTPUT_DIR, f"out-{next_num:05d}.md")` (line 117). -/
def output_filepath (files : List String) : String :=
  OUTPUT_DIR ++ "/" ++ outName (nextNum files)

/-! ## Output-file contents -/

/-- `os.path.basename` on a POSIX path: everything after the last slash
(empty when the path ends in a slash).  A left fold that restarts at every
`'/'` keeps exactly the characters after the last one. -/
def basename (path : String) : String :=
  String.mk (path.data.foldl (fun acc c => if c = '/' then [] else acc ++ [c]) [])

/-- `output_content` (line 120): the markdown written to the output file —
a header naming the analyzed file, the quoted query, a rule, then the
response text as the body. -/
def output_content (file_path user_query response_text : String) : String :=
  "# Analysis of: `" ++ basename file_path ++ "`\n\n**Query:**\n> " ++
  user_query ++ "\n\n---\n\n" ++ response_text

/-! ## Effect traces -/

/-- One observable effect of a run: a line on stdout, a line on stderr, the
HTTP POST attempt, a file written with its full contents, or `sys.exit`. -/
inductive Event where
  | printOut (line : String)
  | printErr (line : String)
  | httpPost (url : String) (payload : Payload)
  | writeFile (path : String) (contents : String)
  | exitProc (code : Nat)
deriving DecidableEq

/-- Outcomes of the filesystem calls `save_response_to_file` makes, fixed by
the world: whether `os.path.exists(OUTPUT_DIR)` holds, whether `os.makedirs`
raises `OSError` (with which message), the result of `os.listdir` (the
filenames, or the `OSError` message), and whether opening/writing the output
file raises `IOError` (in which case no file is produced). -/
structure SaveWorld where
  dirExists : Bool
  mkdirErr : Option String
  listing : Except String (List String)
  writeErr : Option String

/-- The part of `save_response_to_file` after the output directory is in
place: scan the listing, pick the next filename, format the contents, write
and report (lines 102-127). -/
def save_body (w : SaveWorld) (file_path user_query response_text : String) : List Event :=
  match w.listing with
  | .error e =>
    [.printErr ("Error: Could not read output directory 'output': " ++ e)]
  | .ok files =>
    let path := output_filepath files
    let content := output_content file_path user_query response_text
    match w.writeErr with
    | some e => [.printErr ("Error: Could not save response to '" ++ path ++ "': " ++ e)]
    | none => [.writeFile path content, .printOut ("Response saved to '" ++ path ++ "'")]

/-- Model of `save_response_to_file` (lines 84-127): ensure the output
directory exists (on `OSError` print the error and return), then run the
scan-and-write body. -/
def save_response_to_file (w : SaveWorld) (file_path user_query response_text : String) : List Event :=
  if w.dirExists then save_body w file_path user_query response_text
  else
    match w.mkdirErr with
    | some e => [.printErr ("Error: Could not create output directory 'output': " ++ e)]
    | none => save_body w file_path user_query response_text

/-- Model of `generate_prompt` (lines 43-82) including its error paths: on a
missing or unreadable file it prints to stderr and calls `sys.exit(1)`,
which ends the run with the returned trace. -/
def generate_prompt (r : ReadRes) (file_path user_query : String) : Except (List Event) String :=
  match r with
  | .ok contents => .ok (generate_prompt_text file_path contents user_query)
  | .notFound =>
    .error [.printErr ("Error: The file '" ++ file_path ++ "' was not found."), .exitProc 1]
  | .ioErr =>
    .error [.printErr ("Error: Could not read the file '" ++ file_path ++ "'."), .exitProc 1]

/-- The outcomes of every external call one run makes. -/
structure World where
  fileRes : ReadRes
  http : HttpOutcome
  save : SaveWorld

/-- Model of `main` (lines 129-168) after argument parsing: the full event
trace of one run on the two positional arguments.  (Named `main_run` because
Lean reserves `main` for an executable entry point.) -/
def main_run (w : World) (file_path user_query : String) : List Event :=
  .printOut ("Analyzing '" ++ file_path ++ "' with query: '" ++ user_query ++ "'...") ::
  .printOut "Please wait for the response from Ollama..." ::
  match generate_prompt w.fileRes file_path user_query with
  | .error evs => evs
  | .ok prompt =>
    .httpPost OLLAMA_API_URL ⟨MODEL_NAME, prompt, false⟩ ::
    (let response_text := get_response_from_ollama w.http
     .printOut "\n--- ASSISTANT RESPONSE ---" ::
     .printOut response_text ::
     .printOut "--------------------------\n" ::
     save_response_to_file w.save file_path user_query response_text)

/-! ## src/assistant01.py: documents and torch.argmax -/

/-- The four documents of src/assistant01.py (lines 15-20). -/
def documents : List String :=
  ["Venus is often called Earth's twin because of its similar size and proximity.",
   "Mars, known for its reddish appearance, is often referred to as the Red Planet.",
   "Jupiter, the largest planet in our solar system, has a prominent red spot.",
   "Saturn, famous for its rings, is sometimes mistaken for the Red Planet."]

/-- Helper of `torchArgmax`: best value and its index so far, index of the
head of the remaining list. -/
def argmaxAux (best : ℚ) (bestIdx : Nat) (i : Nat) : List ℚ → Nat
  | [] => bestIdx
  | x :: xs => if best < x then argmaxAux x i (i + 1) xs else argmaxAux best bestIdx (i + 1) xs

/-- Model of `torch.argmax` on the flattened similarity tensor (line 34):
the first index attaining the maximal score.  The scores themselves come
from the external embedding model and are inputs here, taken as rationals. -/
def torchArgmax : List ℚ → Nat
  | [] => 0
  | x :: xs => argmaxAux x 0 1 xs

/-- The document the script prints as the best match (line 35). -/
def bestMatchDoc (scores : List ℚ) : String := documents.getD (torchArgmax scores) ""

/-! ## Spec-side definitions (written from the claims' words, for
refinement comparisons with the code-side definitions above) -/

/-- Claim reading of the numbering pattern: the *whole* filename is `out-`,
exactly five digits, `.md` — nothing after the extension. -/
def exactOutMatch (filename : String) : Option Nat :=
  match filename.data with
  | 'o' :: 'u' :: 't' :: '-' :: d1 :: d2 :: d3 :: d4 :: d5 :: '.' :: 'm' :: 'd' :: [] =>
    if d1.isDigit && d2.isDigit && d3.isDigit && d4.isDigit && d5.isDigit then
      some (charVal d1 * 10000 + charVal d2 * 1000 + charVal d3 * 100 +
            charVal d4 * 10 + charVal d5)
    else none
  | _ => none

/-- Maximum of a list of numbers, `none` on the empty list. -/
def listMaxN : List Nat → Option Nat
  | [] => none
  | n :: ns =>
    match listMaxN ns with
    | none => some n
    | some m => some (max n m)

/-- The output number as the claim states it: one plus the maximum of the
numbers of files whose whole name matches `out-` + five digits + `.md`, and
zero when no such file exists. -/
def specExactNext (files : List String) : Nat :=
  match listMaxN (files.filterMap exactOutMatch) with
  | none => 0
  | some m => m + 1

/-- The output number with the matcher the code actually uses (prefix
match): one plus the maximum matched number, zero when none matches. -/
def specPrefixNext (files : List String) : Nat :=
  match listMaxN (files.filterMap outMatch) with
  | none => 0
  | some m => m + 1

/-- The prompt as claim C2 words it: system prompt, two newlines, the
CODE-FILE line, the contents fenced in triple backticks, two newlines, the
USER-QUESTION line, the query. -/
def generate_prompt_spec (file_path code_content user_query : String) : String :=
  system_prompt ++ "\n\n" ++
  ("--- CODE FILE: " ++ file_path ++ " ---") ++ "\n" ++
  ("```\n" ++ code_content ++ "\n```") ++ "\n\n" ++
  "--- USER QUESTION ---" ++ "\n" ++
  user_query

/-! ## Helper lemmas: decimal digits and padding -/

/-- Value of a digit list as `int` reads it, most significant first. -/
def digitsVal (ds : List Char) : Nat := ds.foldl (fun a c => a * 10 + charVal c) 0

theorem digitChar_isDigit {k : Nat} (h : k < 10) : (digitChar k).isDigit = true := by
  interval_cases k <;> decide

theorem charVal_digitChar {k : Nat} (h : k < 10) : charVal (digitChar k) = k := by
  interval_cases k <;> decide

theorem digitsVal_append_singleton (ds : List Char) (c : Char) :
    digitsVal (ds ++ [c]) = digitsVal ds * 10 + charVal c := by
  simp [digitsVal, List.foldl_append]

theorem decDigitsAux_spec : ∀ fuel n, n < fuel →
    (∀ c ∈ decDigitsAux fuel n, c.isDigit = true) ∧
    digitsVal (decDigitsAux fuel n) = n ∧
    1 ≤ (decDigitsAux fuel n).length ∧
    (∀ p, 1 ≤ p → n < 10 ^ p → (decDigitsAux fuel n).length ≤ p) := by
  intro fuel
  induction fuel with
  | zero => intro n hn; omega
  | succ fuel ih =>
    intro n hn
    by_cases h10 : n < 10
    · refine ⟨?_, ?_, ?_, ?_⟩ <;> simp [decDigitsAux, h10]
      · exact digitChar_isDigit h10
      · simpa [digitsVal] using charVal_digitChar h10
      · intro p hp _; exact hp
    · have hdiv : n / 10 < fuel := by omega
      obtain ⟨ihd, ihv, ihl, ihp⟩ := ih (n / 10) hdiv
      have hrw : decDigitsAux (fuel + 1) n =
          decDigitsAux fuel (n / 10) ++ [digitChar (n % 10)] := by
        simp [decDigitsAux, h10]
      refine ⟨?_, ?_, ?_, ?_⟩
      · intro c hc
        rw [hrw] at hc
        rcases List.mem_append.1 hc with hc' | hc'
        · exact ihd c hc'
        · have : c = digitChar (n % 10) := by simpa using hc'
          subst this
          exact digitChar_isDigit (Nat.mod_lt _ (by omega))
      · rw [hrw, digitsVal_append_singleton, ihv, charVal_digitChar (Nat.mod_lt _ (by omega))]
        omega
      · rw [hrw]; simp
      · intro p hp hpow
        rcases Nat.exists_eq_add_of_le hp with ⟨q, rfl⟩
        have hq : 1 ≤ q := by
          by_contra hq0
          have : q = 0 := by omega
          subst this
          simp [pow_succ] at hpow
          omega
        have hpow' : n / 10 < 10 ^ q := by
          have hlt : n < 10 * 10 ^ q := by
            have := hpow
            rw [add_comm, pow_succ] at this
            omega
          exact Nat.div_lt_of_lt_mul hlt
        have := ihp q hq hpow'
        rw [hrw]
        simp only [List.length_append, List.length_singleton]
        omega

theorem decDigits_spec (n : Nat) :
    (∀ c ∈ decDigits n, c.isDigit = true) ∧
    digitsVal (decDigits n) = n ∧
    1 ≤ (decDigits n).length ∧
    (∀ p, 1 ≤ p → n < 10 ^ p → (decDigits n).length ≤ p) :=
  decDigitsAux_spec (n + 1) n (Nat.lt_succ_self n)

theorem digitsVal_replicate_zero_append (z : Nat) (ds : List Char) :
    digitsVal (List.replicate z '0' ++ ds) = digitsVal ds := by
  induction z with
  | zero => simp
  | succ z ih =>
    rw [List.replicate_succ, List.cons_append]
    simpa [digitsVal, charVal] using ih

theorem pad5_isDigit {n : Nat} {c : Char} (hc : c ∈ pad5 n) : c.isDigit = true := by
  rcases List.mem_append.1 hc with h | h
  · have : c = '0' := List.eq_of_mem_replicate h
    subst this; decide
  · exact (decDigits_spec n).1 c h

theorem digitsVal_pad5 (n : Nat) : digitsVal (pad5 n) = n := by
  rw [pad5, digitsVal_replicate_zero_append, (decDigits_spec n).2.1]

theorem pad5_length_ge (n : Nat) : 5 ≤ (pad5 n).length := by
  rw [pad5]
  simp only [List.length_append, List.length_replicate]
  omega

theorem pad5_length_eq {n : Nat} (h : n ≤ 99999) : (pad5 n).length = 5 := by
  have hle : (decDigits n).length ≤ 5 :=
    (decDigits_spec n).2.2.2 5 (by omega) (by omega)
  rw [pad5]
  simp only [List.length_append, List.length_replicate]
  omega

/-! ## Helper lemmas: the numbering round-trips and the directory maximum -/

theorem list_length_five {l : List Char} (h : l.length = 5) :
    ∃ a b c d e, l = [a, b, c, d, e] := by
  rcases l with _ | ⟨a, _ | ⟨b, _ | ⟨c, _ | ⟨d, _ | ⟨e, _ | ⟨f, t⟩⟩⟩⟩⟩⟩ <;> simp_all

theorem digitsVal_five (c1 c2 c3 c4 c5 : Char) :
    digitsVal [c1, c2, c3, c4, c5] =
      charVal c1 * 10000 + charVal c2 * 1000 + charVal c3 * 100 +
      charVal c4 * 10 + charVal c5 := by
  simp [digitsVal, List.foldl]
  ring

/-- Writing a number `≤ 99999` with `f"out-{n:05d}.md"` and reading the
filename back with the regular expression recovers the number. -/
theorem outMatch_outName {n : Nat} (h : n ≤ 99999) : outMatch (outName n) = some n := by
  obtain ⟨c1, c2, c3, c4, c5, hc⟩ := list_length_five (pad5_length_eq h)
  have hd1 : c1.isDigit = true := pad5_isDigit (by rw [hc]; simp)
  have hd2 : c2.isDigit = true := pad5_isDigit (by rw [hc]; simp)
  have hd3 : c3.isDigit = true := pad5_isDigit (by rw [hc]; simp)
  have hd4 : c4.isDigit = true := pad5_isDigit (by rw [hc]; simp)
  have hd5 : c5.isDigit = true := pad5_isDigit (by rw [hc]; simp)
  have hval : digitsVal [c1, c2, c3, c4, c5] = n := by rw [← hc]; exact digitsVal_pad5 n
  rw [digitsVal_five] at hval
  show outMatchL (outNameChars n) = some n
  rw [outNameChars, hc]
  simp [outMatchL, hd1, hd2, hd3, hd4, hd5, hval]

theorem le_listMaxN : ∀ (ns : List Nat) (m : Nat), m ∈ ns →
    ∃ M, listMaxN ns = some M ∧ m ≤ M := by
  intro ns
  induction ns with
  | nil => simp
  | cons n ns ih =>
    intro m hm
    rcases List.mem_cons.1 hm with rfl | hm'
    · cases h : listMaxN ns with
      | none => exact ⟨m, by simp [listMaxN, h], le_refl m⟩
      | some M => exact ⟨max m M, by simp [listMaxN, h], le_max_left m M⟩
    · obtain ⟨M, hM, hle⟩ := ih m hm'
      exact ⟨max n M, by simp [listMaxN, hM], le_trans hle (le_max_right n M)⟩

/-- Closed form of the `for` loop of lines 106-111: the fold computes the
maximum of the matched numbers over the accumulator. -/
theorem foldl_maxStep_eq : ∀ (files : List String) (acc : Int),
    List.foldl maxStep acc files =
      match listMaxN (files.filterMap outMatch) with
      | none => acc
      | some m => max acc (m : Int) := by
  intro files
  induction files with
  | nil => intro acc; simp [listMaxN]
  | cons f fs ih =>
    intro acc
    rw [List.foldl_cons, ih (maxStep acc f)]
    cases hf : outMatch f with
    | none => simp [List.filterMap_cons, hf, maxStep]
    | some n =>
      have hstep : maxStep acc f = max acc (n : Int) := by
        simp only [maxStep, hf]
        split <;> omega
      rw [List.filterMap_cons, hf]
      cases hrest : listMaxN (fs.filterMap outMatch) with
      | none => simp [listMaxN, hrest, hstep]
      | some m =>
        simp only [listMaxN, hrest, hstep]
        rw [Nat.cast_max, max_assoc]

theorem maxNum_eq (files : List String) :
    maxNum files =
      match listMaxN (files.filterMap outMatch) with
      | none => -1
      | some m => (m : Int) := by
  rw [maxNum, foldl_maxStep_eq]
  cases h : listMaxN (files.filterMap outMatch) with
  | none => rfl
  | some m =>
    show max (-1) (m : Int) = (m : Int)
    omega

/-- The number the code picks is the one the (prefix-match) specification
picks: one plus the maximum matched number, zero when nothing matches. -/
theorem nextNum_eq_specPrefixNext (files : List String) :
    nextNum files = specPrefixNext files := by
  rw [nextNum, maxNum_eq, specPrefixNext]
  cases h : listMaxN (files.filterMap outMatch) with
  | none => rfl
  | some m => simp only []; omega

/-- Every number matched in the listing is below the chosen number. -/
theorem matched_lt_nextNum {files : List String} {f : String} {n : Nat}
    (hf : f ∈ files) (hn : outMatch f = some n) : n < nextNum files := by
  have hmem : n ∈ files.filterMap outMatch := List.mem_filterMap.2 ⟨f, hf, hn⟩
  obtain ⟨M, hM, hle⟩ := le_listMaxN _ n hmem
  rw [nextNum, maxNum_eq, hM]
  show n < ((M : Int) + 1).toNat
  omega

/-! ## Helper lemmas: shapes of event traces -/

/-- Whatever the filesystem does, `save_response_to_file` never exits the
process. -/
theorem save_no_exit (sw : SaveWorld) (fp q r : String) (k : Nat) :
    Event.exitProc k ∉ save_response_to_file sw fp q r := by
  rcases sw with ⟨de, me, li, we⟩
  cases de <;> cases me <;> cases li <;> cases we <;>
    simp [save_response_to_file, save_body]

/-- Whatever the filesystem does, `save_response_to_file` never talks to the
network. -/
theorem save_no_httpPost (sw : SaveWorld) (fp q r : String) (u : String) (p : Payload) :
    Event.httpPost u p ∉ save_response_to_file sw fp q r := by
  rcases sw with ⟨de, me, li, we⟩
  cases de <;> cases me <;> cases li <;> cases we <;>
    simp [save_response_to_file, save_body]

/-! ## Helper lemmas: torch.argmax -/

theorem argmaxAux_spec (l : List ℚ) : ∀ (rest : List ℚ) (i bIdx : Nat) (best : ℚ),
    bIdx < i → i + rest.length = l.length →
    (∀ j, j < rest.length → rest.getD j 0 = l.getD (i + j) 0) →
    best = l.getD bIdx 0 → (∀ k, k < i → l.getD k 0 ≤ best) →
    argmaxAux best bIdx i rest < l.length ∧
    ∀ k, k < l.length → l.getD k 0 ≤ l.getD (argmaxAux best bIdx i rest) 0 := by
  intro rest
  induction rest with
  | nil =>
    intro i bIdx best hbi hlen _ hbest hub
    simp only [argmaxAux]
    simp only [List.length_nil, Nat.add_zero] at hlen
    subst hbest
    exact ⟨by omega, fun k hk => hub k (by omega)⟩
  | cons x rest ih =>
    intro i bIdx best hbi hlen hrest hbest hub
    have hx : x = l.getD i 0 := by
      have := hrest 0 (by simp)
      simpa using this
    have hlen' : i + 1 + rest.length = l.length := by
      simp only [List.length_cons] at hlen
      omega
    have hrest' : ∀ j, j < rest.length → rest.getD j 0 = l.getD (i + 1 + j) 0 := by
      intro j hj
      have := hrest (j + 1) (by simp; omega)
      simpa [Nat.add_assoc, Nat.add_comm 1 j] using this
    by_cases hcmp : best < x
    · have hres : argmaxAux best bIdx i (x :: rest) = argmaxAux x i (i + 1) rest := by
        simp [argmaxAux, hcmp]
      rw [hres]
      apply ih (i + 1) i x (by omega) hlen' hrest' hx
      intro k hk
      by_cases hki : k < i
      · exact le_trans (hub k hki) (le_of_lt hcmp)
      · have : k = i := by omega
        subst this
        rw [← hx]
    · have hres : argmaxAux best bIdx i (x :: rest) = argmaxAux best bIdx (i + 1) rest := by
        simp [argmaxAux, hcmp]
      rw [hres]
      apply ih (i + 1) bIdx best (by omega) hlen' hrest' hbest
      intro k hk
      by_cases hki : k < i
      · exact hub k hki
      · have : k = i := by omega
        subst this
        rw [← hx]
        exact le_of_not_lt hcmp

/-- `torch.argmax` returns an index of the list that attains the maximum. -/
theorem torchArgmax_spec (scores : List ℚ) (h : scores ≠ []) :
    torchArgmax scores < scores.length ∧
    ∀ k, k < scores.length → scores.getD k 0 ≤ scores.getD (torchArgmax scores) 0 := by
  rcases scores with _ | ⟨x, xs⟩
  · exact absurd rfl h
  · show argmaxAux x 0 1 xs < (x :: xs).length ∧ _
    apply argmaxAux_spec (x :: xs) xs 1 0 x (by omega) (by simp [Nat.add_comm])
    · intro j hj
      simp [Nat.add_comm 1 j]
    · simp
    · intro k hk
      have : k = 0 := by omega
      subst this
      simp

/-! ## The claims -/

/-- C1, counterexample: with the directory containing only `out-99999.mdx`,
no file's *whole* name is `out-` + five digits + `.md`, so the claim's
number is zero and its formatted number has five digits; the code, whose
`re.match` only anchors at the start of the filename, counts the file and
picks 100000, which `%05d` formats with six digits. -/
theorem C1_counterexample :
    ¬ (nextNum ["out-99999.mdx"] = specExactNext ["out-99999.mdx"] ∧
       (pad5 (nextNum ["out-99999.mdx"])).length = 5) := by
  decide

/-- C1, amended: for every set of filenames in the output directory,
`save_response_to_file` chooses the output number equal to one plus the
maximum of the numbers of existing files whose names *begin with* `out-`,
exactly five digits and `.md` (zero when no such file exists) — hence a
number strictly greater than every existing one — and formats it
zero-padded to a minimum of five digits (exactly five whenever the number
does not exceed 99999). -/
theorem C1_next_number (files : List String) :
    nextNum files = specPrefixNext files ∧
    (∀ f ∈ files, ∀ n, outMatch f = some n → n < nextNum files) ∧
    output_filepath files = OUTPUT_DIR ++ "/" ++ outName (nextNum files) ∧
    5 ≤ (pad5 (nextNum files)).length ∧
    (nextNum files ≤ 99999 → (pad5 (nextNum files)).length = 5) := by
  refine ⟨nextNum_eq_specPrefixNext files, ?_, rfl, pad5_length_ge _, fun h => pad5_length_eq h⟩
  intro f hf n hn
  exact matched_lt_nextNum hf hn

/-- C2: for every readable file and every query, `generate_prompt` returns
exactly the fixed template of the claim — system prompt, two newlines, the
CODE-FILE line, the contents fenced in triple backticks, two newlines, the
USER-QUESTION line, and the query; the result is a pure function of the
three strings. -/
theorem C2_generate_prompt (file_path code_content user_query : String) :
    generate_prompt (ReadRes.ok code_content) file_path user_query =
      Except.ok (generate_prompt_spec file_path code_content user_query) := by
  show Except.ok (generate_prompt_text file_path code_content user_query) = _
  have h : generate_prompt_text file_path code_content user_query =
      generate_prompt_spec file_path code_content user_query := by
    apply String.ext
    simp [generate_prompt_text, generate_prompt_spec, String.data_append]
  rw [h]

/-- C10: an HTTP response whose JSON body parses but has no `response` key
makes `get_response_from_ollama` return the fixed fallback string. -/
theorem C10_missing_response_key (body : List (String × String))
    (h : body.lookup "response" = none) :
    get_response_from_ollama (HttpOutcome.jsonOk body) =
      "No response found in the API output." := by
  simp [get_response_from_ollama, dictGet, h]

/-- Witness for C10 at the empty JSON object. -/
theorem C10_witness :
    ([] : List (String × String)).lookup "response" = none ∧
    get_response_from_ollama (HttpOutcome.jsonOk []) =
      "No response found in the API output." :=
  ⟨rfl, C10_missing_response_key [] rfl⟩

/-- C8, counterexample: with `out-99999.md` and `out-100000.md` both
present, the scan sees only 99999 (six digits do not match `\d{5}`), picks
100000, and the chosen filename `out-100000.md` already exists — the run
would overwrite it. -/
theorem C8_counterexample :
    outName (nextNum ["out-99999.md", "out-100000.md"]) ∈
      ["out-99999.md", "out-100000.md"] := by
  decide

/-- C8, amended: as long as the chosen number is at most 99999 (that is,
until the five-digit counter overflows), the chosen output filename never
names a file already present in the directory listing. -/
theorem C8_no_overwrite (files : List String) (h : nextNum files ≤ 99999) :
    outName (nextNum files) ∉ files := by
  intro hmem
  have hlt := matched_lt_nextNum hmem (outMatch_outName h)
  omega

/-- Witness for C8 on a directory holding `out-00003.md`. -/
theorem C8_witness :
    nextNum ["out-00003.md"] ≤ 99999 ∧
    outName (nextNum ["out-00003.md"]) ∉ ["out-00003.md"] :=
  ⟨by decide, C8_no_overwrite ["out-00003.md"] (by decide)⟩

/-- C3: when the input file does not exist, the run prints an error line to
stderr, the trace ends with `sys.exit(1)` — a non-zero status — and no HTTP
request to the Ollama server ever appears in the trace. -/
theorem C3_missing_input_file (w : World) (file_path user_query : String)
    (h : w.fileRes = ReadRes.notFound) :
    (∃ m, Event.printErr m ∈ main_run w file_path user_query) ∧
    (main_run w file_path user_query).getLast? = some (Event.exitProc 1) ∧
    ∀ u p, Event.httpPost u p ∉ main_run w file_path user_query := by
  have htr : main_run w file_path user_query =
      [.printOut ("Analyzing '" ++ file_path ++ "' with query: '" ++ user_query ++ "'..."),
       .printOut "Please wait for the response from Ollama...",
       .printErr ("Error: The file '" ++ file_path ++ "' was not found."),
       .exitProc 1] := by
    simp [main_run, generate_prompt, h]
  rw [htr]
  refine ⟨⟨"Error: The file '" ++ file_path ++ "' was not found.", by simp⟩, by simp, ?_⟩
  intro u p
  simp

/-- Witness for C3: a world whose input file is missing. -/
theorem C3_witness :
    (World.mk ReadRes.notFound (HttpOutcome.reqError "net down")
        (SaveWorld.mk true none (Except.ok []) none)).fileRes = ReadRes.notFound ∧
    ((∃ m, Event.printErr m ∈ main_run
        (World.mk ReadRes.notFound (HttpOutcome.reqError "net down")
          (SaveWorld.mk true none (Except.ok []) none)) "f.py" "what") ∧
     (main_run (World.mk ReadRes.notFound (HttpOutcome.reqError "net down")
          (SaveWorld.mk true none (Except.ok []) none)) "f.py" "what").getLast? =
        some (Event.exitProc 1) ∧
     ∀ u p, Event.httpPost u p ∉ main_run
        (World.mk ReadRes.notFound (HttpOutcome.reqError "net down")
          (SaveWorld.mk true none (Except.ok []) none)) "f.py" "what") :=
  ⟨rfl, C3_missing_input_file _ "f.py" "what" rfl⟩

/-- C4: when the HTTP request fails — network failure or the HTTPError that
`raise_for_status` raises on a 4xx/5xx status, both caught as
`RequestException` — `get_response_from_ollama` does not raise but returns
the error-message string, and the run never exits early: no exit event
appears in the trace. -/
theorem C4_http_failure_handled (w : World) (file_path user_query contents msg : String)
    (hf : w.fileRes = ReadRes.ok contents) (hh : w.http = HttpOutcome.reqError msg) :
    get_response_from_ollama w.http =
      "An error occurred while connecting to Ollama: " ++ msg ∧
    ∀ k, Event.exitProc k ∉ main_run w file_path user_query := by
  constructor
  · rw [hh]
    rfl
  · intro k
    simp only [main_run, generate_prompt, hf]
    intro hmem
    simp only [List.mem_cons] at hmem
    rcases hmem with h1 | h1 | h1 | h1 | h1 | h1 | h1
    · exact Event.noConfusion h1
    · exact Event.noConfusion h1
    · exact Event.noConfusion h1
    · exact Event.noConfusion h1
    · exact Event.noConfusion h1
    · exact Event.noConfusion h1
    · exact save_no_exit _ _ _ _ _ h1

/-- Witness for C4: a reachable world where the POST raises. -/
theorem C4_witness :
    (World.mk (ReadRes.ok "print(1)") (HttpOutcome.reqError "connection refused")
        (SaveWorld.mk true none (Except.ok []) none)).fileRes = ReadRes.ok "print(1)" ∧
    (World.mk (ReadRes.ok "print(1)") (HttpOutcome.reqError "connection refused")
        (SaveWorld.mk true none (Except.ok []) none)).http =
      HttpOutcome.reqError "connection refused" ∧
    (get_response_from_ollama (World.mk (ReadRes.ok "print(1)")
        (HttpOutcome.reqError "connection refused")
        (SaveWorld.mk true none (Except.ok []) none)).http =
      "An error occurred while connecting to Ollama: " ++ "connection refused" ∧
     ∀ k, Event.exitProc k ∉ main_run
        (World.mk (ReadRes.ok "print(1)") (HttpOutcome.reqError "connection refused")
          (SaveWorld.mk true none (Except.ok []) none)) "f.py" "what") :=
  ⟨rfl, rfl, C4_http_failure_handled _ "f.py" "what" "print(1)" "connection refused" rfl rfl⟩

/-- Predicate picking the HTTP-post events of a trace. -/
def isHttpPost (ev : Event) : Bool :=
  match ev with
  | .httpPost _ _ => true
  | _ => false

theorem save_countP_httpPost (sw : SaveWorld) (fp q r : String) :
    (save_response_to_file sw fp q r).countP isHttpPost = 0 := by
  rcases sw with ⟨de, me, li, we⟩
  cases de <;> cases me <;> cases li <;> cases we <;>
    simp [save_response_to_file, save_body, isHttpPost, List.countP_cons]

/-- C5: every run attempts at most one HTTP POST; any POST that is
attempted goes to the fixed local endpoint and its body is the
three-field payload — the model identifier, some prompt string, and the
stream flag set to false.  No retry exists: the count never exceeds one. -/
theorem C5_single_request (w : World) (file_path user_query : String) :
    (main_run w file_path user_query).countP isHttpPost ≤ 1 ∧
    ∀ u p, Event.httpPost u p ∈ main_run w file_path user_query →
      u = OLLAMA_API_URL ∧ ∃ prompt, p = Payload.mk MODEL_NAME prompt false := by
  cases hf : w.fileRes with
  | ok c =>
    constructor
    · simp [main_run, generate_prompt, hf, List.countP_cons, isHttpPost,
        save_countP_httpPost]
    · intro u p hmem
      simp only [main_run, generate_prompt, hf, List.mem_cons] at hmem
      rcases hmem with h1 | h1 | h1 | h1 | h1 | h1 | h1
      · exact Event.noConfusion h1
      · exact Event.noConfusion h1
      · obtain ⟨hu, hp⟩ := Event.httpPost.inj h1
        exact ⟨hu, generate_prompt_text file_path c user_query, hp⟩
      · exact Event.noConfusion h1
      · exact Event.noConfusion h1
      · exact Event.noConfusion h1
      · exact absurd h1 (save_no_httpPost _ _ _ _ _ _)
  | notFound =>
    constructor
    · simp [main_run, generate_prompt, hf, List.countP_cons, isHttpPost]
    · intro u p hmem
      simp [main_run, generate_prompt, hf] at hmem
  | ioErr =>
    constructor
    · simp [main_run, generate_prompt, hf, List.countP_cons, isHttpPost]
    · intro u p hmem
      simp [main_run, generate_prompt, hf] at hmem

/-- C6: when the output directory is missing and cannot be created, or its
contents cannot be listed, `save_response_to_file` prints an error message
and returns without emitting any file write. -/
theorem C6_directory_errors (sw : SaveWorld) (file_path user_query response_text : String)
    (h : (sw.dirExists = false ∧ ∃ e, sw.mkdirErr = some e) ∨
         (∃ e, sw.listing = Except.error e)) :
    (∃ m, Event.printErr m ∈ save_response_to_file sw file_path user_query response_text) ∧
    ∀ p c, Event.writeFile p c ∉ save_response_to_file sw file_path user_query response_text := by
  rcases sw with ⟨de, me, li, we⟩
  rcases h with ⟨hde, e, hme⟩ | ⟨e, hli⟩
  · subst hde
    subst hme
    constructor
    · exact ⟨"Error: Could not create output directory 'output': " ++ e,
        by simp [save_response_to_file]⟩
    · intro p c
      simp [save_response_to_file]
  · subst hli
    cases de with
    | true =>
      refine ⟨⟨"Error: Could not read output directory 'output': " ++ e, ?_⟩, ?_⟩
      · simp [save_response_to_file, save_body]
      · intro p c
        simp [save_response_to_file, save_body]
    | false =>
      cases me with
      | none =>
        refine ⟨⟨"Error: Could not read output directory 'output': " ++ e, ?_⟩, ?_⟩
        · simp [save_response_to_file, save_body]
        · intro p c
          simp [save_response_to_file, save_body]
      | some e2 =>
        refine ⟨⟨"Error: Could not create output directory 'output': " ++ e2, ?_⟩, ?_⟩
        · simp [save_response_to_file, save_body]
        · intro p c
          simp [save_response_to_file, save_body]

/-- Witness for C6: a world whose directory listing raises an OSError. -/
theorem C6_witness :
    (((SaveWorld.mk true none (Except.error "permission denied") none).dirExists = false ∧
        ∃ e, (SaveWorld.mk true none (Except.error "permission denied") none).mkdirErr = some e) ∨
      (∃ e, (SaveWorld.mk true none (Except.error "permission denied") none).listing =
        Except.error e)) ∧
    ((∃ m, Event.printErr m ∈ save_response_to_file
        (SaveWorld.mk true none (Except.error "permission denied") none) "f.py" "what" "resp") ∧
     ∀ p c, Event.writeFile p c ∉ save_response_to_file
        (SaveWorld.mk true none (Except.error "permission denied") none) "f.py" "what" "resp") :=
  ⟨Or.inr ⟨"permission denied", rfl⟩,
   C6_directory_errors _ "f.py" "what" "resp" (Or.inr ⟨"permission denied", rfl⟩)⟩

/-- C7: for any similarity scores over the four documents, the index the
script prints is an argmax — it is a valid index into the document list and
its score is at least every other score — and the document printed is the
one at that index. -/
theorem C7_best_match (scores : List ℚ) (h : scores.length = 4) :
    torchArgmax scores < documents.length ∧
    bestMatchDoc scores = documents.getD (torchArgmax scores) "" ∧
    ∀ j, j < scores.length → scores.getD j 0 ≤ scores.getD (torchArgmax scores) 0 := by
  have hne : scores ≠ [] := by
    intro he
    rw [he] at h
    simp at h
  obtain ⟨hlt, hmax⟩ := torchArgmax_spec scores hne
  refine ⟨?_, rfl, hmax⟩
  have hdoc : documents.length = 4 := rfl
  omega

/-- Witness for C7 on the scores 0.3, 0.8, 0.5, 0.1 (scaled to rationals). -/
theorem C7_witness :
    ([(3 : ℚ) / 10, 8 / 10, 5 / 10, 1 / 10] : List ℚ).length = 4 ∧
    (torchArgmax [(3 : ℚ) / 10, 8 / 10, 5 / 10, 1 / 10] < documents.length ∧
     bestMatchDoc [(3 : ℚ) / 10, 8 / 10, 5 / 10, 1 / 10] =
       documents.getD (torchArgmax [(3 : ℚ) / 10, 8 / 10, 5 / 10, 1 / 10]) "" ∧
     ∀ j, j < ([(3 : ℚ) / 10, 8 / 10, 5 / 10, 1 / 10] : List ℚ).length →
       ([(3 : ℚ) / 10, 8 / 10, 5 / 10, 1 / 10] : List ℚ).getD j 0 ≤
       ([(3 : ℚ) / 10, 8 / 10, 5 / 10, 1 / 10] : List ℚ).getD
         (torchArgmax [(3 : ℚ) / 10, 8 / 10, 5 / 10, 1 / 10]) 0) :=
  ⟨rfl, C7_best_match _ rfl⟩

/-- Whenever the output directory is in place (it exists, or `makedirs`
succeeded), the listing succeeds and the write raises nothing,
`save_response_to_file` writes the formatted markdown to the chosen path. -/
theorem save_writes (sw : SaveWorld) (fp q r : String) (files : List String)
    (hdir : sw.dirExists = true ∨ sw.mkdirErr = none)
    (hli : sw.listing = Except.ok files) (hwr : sw.writeErr = none) :
    Event.writeFile (output_filepath files) (output_content fp q r) ∈
      save_response_to_file sw fp q r := by
  rcases sw with ⟨de, me, li, we⟩
  simp only at hli hwr
  subst hli
  subst hwr
  cases de with
  | true => simp [save_response_to_file, save_body]
  | false =>
    rcases hdir with hd | hd
    · exact absurd hd (by simp)
    · simp only at hd
      subst hd
      simp [save_response_to_file, save_body]

/-- C9: when the HTTP call fails but the filesystem cooperates, the
error-message string returned in place of a response is printed to stdout
and saved: the run writes the auto-numbered markdown file whose body is the
header, the quoted query and the error text. -/
theorem C9_error_saved (w : World) (file_path user_query contents msg : String)
    (files : List String)
    (hf : w.fileRes = ReadRes.ok contents) (hh : w.http = HttpOutcome.reqError msg)
    (hdir : w.save.dirExists = true ∨ w.save.mkdirErr = none)
    (hli : w.save.listing = Except.ok files) (hwr : w.save.writeErr = none) :
    Event.printOut ("An error occurred while connecting to Ollama: " ++ msg) ∈
      main_run w file_path user_query ∧
    Event.writeFile (output_filepath files)
      (output_content file_path user_query
        ("An error occurred while connecting to Ollama: " ++ msg)) ∈
      main_run w file_path user_query := by
  have hresp : get_response_from_ollama w.http =
      "An error occurred while connecting to Ollama: " ++ msg := by
    rw [hh]
    rfl
  constructor
  · simp [main_run, generate_prompt, hf, hresp]
  · simp only [main_run, generate_prompt, hf, hresp]
    refine List.mem_cons_of_mem _ (List.mem_cons_of_mem _ (List.mem_cons_of_mem _
      (List.mem_cons_of_mem _ (List.mem_cons_of_mem _ (List.mem_cons_of_mem _ ?_)))))
    exact save_writes w.save file_path user_query _ files hdir hli hwr

/-- Witness for C9: failing HTTP call, empty but healthy output directory. -/
theorem C9_witness :
    (World.mk (ReadRes.ok "x = 1") (HttpOutcome.reqError "boom")
        (SaveWorld.mk true none (Except.ok []) none)).fileRes = ReadRes.ok "x = 1" ∧
    (World.mk (ReadRes.ok "x = 1") (HttpOutcome.reqError "boom")
        (SaveWorld.mk true none (Except.ok []) none)).http = HttpOutcome.reqError "boom" ∧
    (Event.printOut ("An error occurred while connecting to Ollama: " ++ "boom") ∈
       main_run (World.mk (ReadRes.ok "x = 1") (HttpOutcome.reqError "boom")
         (SaveWorld.mk true none (Except.ok []) none)) "code.py" "what" ∧
     Event.writeFile (output_filepath [])
       (output_content "code.py" "what"
         ("An error occurred while connecting to Ollama: " ++ "boom")) ∈
       main_run (World.mk (ReadRes.ok "x = 1") (HttpOutcome.reqError "boom")
         (SaveWorld.mk true none (Except.ok []) none)) "code.py" "what") :=
  ⟨rfl, rfl,
   C9_error_saved _ "code.py" "what" "x = 1" "boom" [] rfl rfl (Or.inl rfl) rfl rfl⟩
